import Mathlib

/-!
Verification of the NexChakra storefront backend (`backend/main.py`,
`backend/app/models.py`, `backend/app/schemas.py`).

The relational store is embedded as an explicit `DB` record of table rows;
every FastAPI route handler that the claims touch is translated into a pure
function `DB → args → DB × Except HTTPError α`: the returned `DB` is the
committed state after the request (Python raises of `HTTPException` before
any commit leave the state as of the last commit, which the translation
returns alongside the error).  Numeric columns (`Numeric(10,2)` prices) are
embedded as `ℚ`; integer stock columns as `ℤ` (the Pydantic schemas put no
lower bound on `stock`, so negative values are representable); primary keys
are drawn from a fresh-id counter `nextId`.

Three handlers fault unconditionally in the source and are embedded as
error-returning no-ops.  `create_product` passes `ProductCreate.model_dump()`
— which contains `image_url` and `slug`, neither a mapped attribute of
`models.Product` — to the `models.Product` constructor, raising `TypeError`
before `db.add`; `update_product` passes the same unmapped keys to
`Query.update`, which rejects them before issuing any UPDATE; and
`create_order` evaluates `cart.items` although `models.py` maps no
relationships at all, raising `AttributeError` whenever a cart row exists.
An uncaught exception surfaces as HTTP 500 and nothing is committed.
-/

namespace NexChakra

/-- Role enum `models.UserRole`. -/
inductive UserRole where
  | admin
  | customer
deriving Repr, DecidableEq

/-- A row of `models.User` (columns the verified routes read). -/
structure User where
  id : Nat
  name : String
  email : String
  phone : Option String
  passwordHash : String
  role : UserRole
deriving Repr, DecidableEq

/-- A row of `models.Product` (columns the verified routes read; image/SKU/flag
columns are never read by the routes under verification and are elided). -/
structure Product where
  id : Nat
  categoryId : Nat
  title : String
  description : Option String
  price : ℚ
  discountPrice : Option ℚ
  stock : Int
  slug : Option String
deriving Repr, DecidableEq

/-- A row of `models.Cart`. -/
structure Cart where
  id : Nat
  userId : Nat
deriving Repr, DecidableEq

/-- A row of `models.CartItem`. -/
structure CartItem where
  id : Nat
  cartId : Nat
  productId : Nat
  variantId : Option Nat
  quantity : Nat
deriving Repr, DecidableEq

/-- A row of `models.Order` (timestamps elided). -/
structure Order where
  id : Nat
  userId : Nat
  addressId : Nat
  totalAmount : ℚ
  status : String
  paymentStatus : String
deriving Repr, DecidableEq

/-- A row of `models.OrderItem`. -/
structure OrderItem where
  id : Nat
  orderId : Nat
  productId : Nat
  variantId : Option Nat
  price : ℚ
  quantity : Nat
deriving Repr, DecidableEq

/-- Schema `schemas.UserCreate` (Pydantic): registration request body. -/
structure UserCreate where
  name : String
  email : String
  phone : Option String
  password : String
deriving Repr, DecidableEq

/-- Schema `schemas.ProductCreate` (Pydantic): product create/update request body.
No validator restricts `stock`, so any integer is accepted.  The schema also
carries an `image_url` field (elided here, like the SKU/flag fields);
`image_url` and `slug` are not mapped columns of `models.Product`, which is
what makes the create/update routes fault (see `create_product` and
`update_product`). -/
structure ProductCreate where
  title : String
  description : Option String
  price : ℚ
  discountPrice : Option ℚ
  categoryId : Nat
  stock : Int
  slug : Option String
deriving Repr, DecidableEq

/-- Schema `schemas.CartItemCreate` (Pydantic): `quantity` carries `Field(gt=0)`,
so request bodies reaching the handler satisfy `0 < quantity`. -/
structure CartItemCreate where
  productId : Nat
  quantity : Nat
  variantId : Option Nat
deriving Repr, DecidableEq

/-- A raised `fastapi.HTTPException` (status code and detail). -/
structure HTTPError where
  statusCode : Nat
  detail : String
deriving Repr, DecidableEq

/-- Decidable equality of request results, so that witnesses can be settled
by evaluation. -/
instance {ε α : Type} [DecidableEq ε] [DecidableEq α] : DecidableEq (Except ε α) := fun x y =>
  match x, y with
  | .ok a, .ok b =>
    if h : a = b then isTrue (h ▸ rfl) else isFalse (fun hc => h (Except.ok.inj hc))
  | .error a, .error b =>
    if h : a = b then isTrue (h ▸ rfl) else isFalse (fun hc => h (Except.error.inj hc))
  | .ok _, .error _ => isFalse (fun hc => Except.noConfusion hc)
  | .error _, .ok _ => isFalse (fun hc => Except.noConfusion hc)

/-- A JSON message pushed over the admin notification websocket.  The only
kind the handler source would construct is `NEW_ORDER`, on `create_order`'s
unreachable success path; the other kinds appear in the specification's
event taxonomy and are included so that their absence is expressible.
`broadcast` is independent of persistence and is exercised directly. -/
inductive Event where
  | NEW_ORDER (orderId : Nat) (customer : String) (amount : ℚ)
  | STOCK_UPDATE (productId : Nat) (newStock : Int)
  | LOW_STOCK_WARNING (productId : Nat) (remaining : Int)
  | ORDER_CANCELLED (orderId : Nat) (customer : String)
deriving Repr, DecidableEq

/-- The relational store: one list of rows per table the claims touch,
plus a fresh primary-key counter. -/
structure DB where
  users : List User
  products : List Product
  carts : List Cart
  cartItems : List CartItem
  orders : List Order
  orderItems : List OrderItem
  nextId : Nat
deriving Repr, DecidableEq

/-- SQLAlchemy `query.filter(...).first()` followed by in-place mutation of
the returned row: rewrite the first list element satisfying `pred` by `f`. -/
def updateFirstWhere {α : Type} (pred : α → Bool) (f : α → α) : List α → List α
  | [] => []
  | x :: xs => if pred x then f x :: xs else x :: updateFirstWhere pred f xs

/-- Query `db.query(Product).filter(Product.id == pid).first()`. -/
def findProduct (db : DB) (pid : Nat) : Option Product :=
  db.products.find? (fun p => p.id == pid)

/-- Stand-in for `passlib`'s salted `auth.hash_password` (external library
code; the claims never inspect hashes beyond propagating them). -/
def hash_password (password : String) : String :=
  "bcrypt$" ++ password

/-- Route `POST /auth/register` (`main.register`). -/
def register (db : DB) (d : UserCreate) : DB × Except HTTPError User :=
  match db.users.find? (fun u => u.email == d.email) with
  | some _ => (db, .error ⟨400, "Email already registered"⟩)
  | none =>
    let u : User :=
      { id := db.nextId, name := d.name, email := d.email, phone := d.phone
        passwordHash := hash_password d.password, role := UserRole.customer }
    ({ db with users := db.users ++ [u], nextId := db.nextId + 1 }, .ok u)

/-- Route `POST /products` (`main.create_product`); the admin check lives in
the `get_current_admin` dependency, modelled as a hypothesis on `Step`.
After the slug defaulting, the handler calls `models.Product(**product_data)`
— but `product_data` contains `image_url` and `slug`, neither of which is a
mapped attribute of `models.Product` (`slug` lives on `Category`,
`image_url` on `ProductImage`), so the declarative constructor raises
`TypeError` before `db.add`: the route always returns HTTP 500 and never
inserts a product. -/
def create_product (db : DB) (d : ProductCreate) : DB × Except HTTPError Product :=
  (db, .error ⟨500, "Internal Server Error"⟩)

/-- Route `PUT /products/{product_id}` (`main.update_product`).  The 404
check runs first; for an existing product the handler then calls
`product_query.update(updated_data.model_dump())`, whose payload contains
the unmapped keys `image_url` and `slug`, so SQLAlchemy raises before any
UPDATE is issued: the route returns HTTP 500 and never writes a product
row. -/
def update_product (db : DB) (productId : Nat) (d : ProductCreate) :
    DB × Except HTTPError (Option Product) :=
  match findProduct db productId with
  | none => (db, .error ⟨404, "Product not found"⟩)
  | some _ => (db, .error ⟨500, "Internal Server Error"⟩)

/-- Helper `main.get_or_create_cart`: note that creating the missing cart is
committed immediately, before the caller's own validation. -/
def get_or_create_cart (db : DB) (userId : Nat) : DB × Cart :=
  match db.carts.find? (fun c => c.userId == userId) with
  | some c => (db, c)
  | none =>
    let c : Cart := { id := db.nextId, userId := userId }
    ({ db with carts := db.carts ++ [c], nextId := db.nextId + 1 }, c)

/-- Route `POST /cart/items` (`main.add_to_cart`). -/
def add_to_cart (db : DB) (user : User) (d : CartItemCreate) :
    DB × Except HTTPError CartItem :=
  let r := get_or_create_cart db user.id
  let db1 := r.1
  let cart := r.2
  match findProduct db1 d.productId with
  | none => (db1, .error ⟨404, "Product not found"⟩)
  | some p =>
    if p.stock < (d.quantity : Int) then
      (db1, .error ⟨400, "Not enough stock available"⟩)
    else
      match db1.cartItems.find? (fun i => i.cartId == cart.id && i.productId == d.productId) with
      | some existing =>
        let updated : CartItem := { existing with quantity := existing.quantity + d.quantity }
        let newItems :=
          updateFirstWhere (fun i => i.cartId == cart.id && i.productId == d.productId)
            (fun i => { i with quantity := i.quantity + d.quantity }) db1.cartItems
        ({ db1 with cartItems := newItems }, .ok updated)
      | none =>
        let ni : CartItem :=
          { id := db1.nextId, cartId := cart.id, productId := d.productId
            variantId := d.variantId, quantity := d.quantity }
        ({ db1 with cartItems := db1.cartItems ++ [ni], nextId := db1.nextId + 1 }, .ok ni)

/-- Route `DELETE /cart/items/{item_id}` (`main.remove_from_cart`). -/
def remove_from_cart (db : DB) (user : User) (itemId : Nat) :
    DB × Except HTTPError Unit :=
  let r := get_or_create_cart db user.id
  let db1 := r.1
  let cart := r.2
  match db1.cartItems.find? (fun i => i.id == itemId && i.cartId == cart.id) with
  | none => (db1, .error ⟨404, "Item not found in your cart"⟩)
  | some item =>
    ({ db1 with cartItems := db1.cartItems.filter (fun i => !(i.id == item.id)) }, .ok ())

/-- Route `POST /orders` (`main.create_order`).  The handler can never reach
its write path: with no cart row it raises 400 "Cart is empty"; with a cart
row, evaluating `not cart.items` raises `AttributeError` — `models.Cart`
declares no `items` relationship (`models.py` maps no relationships at all)
— which FastAPI surfaces as HTTP 500.  Both failures occur before any
write, so nothing is committed, and the trailing `NEW_ORDER` broadcast is
never executed; the loop body over cart lines is equally dead code
(`cart_item.product` does not exist on `models.CartItem`). -/
def create_order (db : DB) (user : User) (addressId : Nat) :
    DB × Except HTTPError (Order × List Event) :=
  match db.carts.find? (fun c => c.userId == user.id) with
  | none => (db, .error ⟨400, "Cart is empty"⟩)
  | some _ => (db, .error ⟨500, "Internal Server Error"⟩)

/-- Route `PATCH /admin/orders/{order_id}/status` (`main.update_order_status`):
the requested status string is written unconditionally. -/
def update_order_status (db : DB) (orderId : Nat) (newStatus : String) :
    DB × Except HTTPError Order :=
  match db.orders.find? (fun o => o.id == orderId) with
  | none => (db, .error ⟨404, "Order not found"⟩)
  | some o =>
    let newOrders :=
      updateFirstWhere (fun x => x.id == orderId)
        (fun x => { x with status := newStatus }) db.orders
    ({ db with orders := newOrders }, .ok { o with status := newStatus })

/-- A live websocket in `ConnectionManager.active_connections`; `sendOk`
records whether `send_json` succeeds on this connection. -/
structure Conn where
  id : Nat
  sendOk : Bool
deriving Repr, DecidableEq

/-- Method `ConnectionManager.broadcast`: a bare `for` loop of `await
connection.send_json(message)` with no exception handling.  Returns the
deliveries performed in order and, if some send raised, the id of the raising
connection (the exception propagates to the caller and the loop stops). -/
def broadcast (conns : List Conn) (msg : Event) : List (Nat × Event) × Option Nat :=
  match conns with
  | [] => ([], none)
  | c :: rest =>
    if c.sendOk then
      let r := broadcast rest msg
      ((c.id, msg) :: r.1, r.2)
    else
      ([], some c.id)

/-- The administrator account inserted by `seed_admin.py`. -/
def adminUser : User :=
  { id := 1, name := "Super Admin", email := "admin@nexchakra.com"
    phone := some "0000000000", passwordHash := hash_password "Admin@123"
    role := UserRole.admin }

/-- The store after `init_db.py` + `seed_admin.py`: empty tables except the
seeded administrator account. -/
def initDB : DB :=
  { users := [adminUser]
    products := [], carts := [], cartItems := [], orders := [], orderItems := []
    nextId := 2 }

/-- The five values of the `order_status` database enum. -/
def orderStatuses : List String :=
  ["pending", "paid", "shipped", "delivered", "cancelled"]

/-- One public request.  Admin-only routes require a requesting user with
the admin role (`get_current_admin`), the other routes any authenticated
user; Pydantic's `gt=0` on cart quantities is a hypothesis on the cart
step, and the order-status step is restricted to the five strings the
`order_status` database enum accepts. -/
inductive Step : DB → DB → Prop where
  | register (db : DB) (d : UserCreate) :
      Step db (NexChakra.register db d).1
  | createProduct (db : DB) (u : User) (d : ProductCreate)
      (hu : u ∈ db.users) (hr : u.role = UserRole.admin) :
      Step db (create_product db d).1
  | updateProduct (db : DB) (u : User) (pid : Nat) (d : ProductCreate)
      (hu : u ∈ db.users) (hr : u.role = UserRole.admin) :
      Step db (update_product db pid d).1
  | addToCart (db : DB) (u : User) (d : CartItemCreate)
      (hu : u ∈ db.users) (hq : 0 < d.quantity) :
      Step db (add_to_cart db u d).1
  | removeFromCart (db : DB) (u : User) (itemId : Nat) (hu : u ∈ db.users) :
      Step db (remove_from_cart db u itemId).1
  | checkout (db : DB) (u : User) (addressId : Nat) (hu : u ∈ db.users) :
      Step db (create_order db u addressId).1
  | orderStatus (db : DB) (u : User) (orderId : Nat) (s : String)
      (hu : u ∈ db.users) (hr : u.role = UserRole.admin) (hs : s ∈ orderStatuses) :
      Step db (update_order_status db orderId s).1

/-- States reachable from the seeded store by arbitrary public requests. -/
def ReachableAny (db : DB) : Prop :=
  Relation.ReflTransGen Step initDB db

/-- Non-negativity of every product's stock column. -/
def StocksNN (db : DB) : Prop :=
  ∀ p ∈ db.products, 0 ≤ p.stock

/-! ### Concrete fixtures used by witnesses and counterexamples -/

/-- Fixture: a registered customer. -/
def uAlice : User :=
  { id := 10, name := "Alice", email := "alice@example.com", phone := none
    passwordHash := hash_password "pw", role := UserRole.customer }

/-- Fixture: a product with catalog price 10, no discount, stock 6. -/
def pRing : Product :=
  { id := 20, categoryId := 1, title := "Ring", description := none
    price := 10, discountPrice := none, stock := 6, slug := none }

/-- Fixture: Alice owns a cart holding one line of `pRing`, quantity 1
(the base state for `dbVar`). -/
def dbW : DB :=
  { users := [uAlice], products := [pRing]
    carts := [{ id := 30, userId := 10 }]
    cartItems := [{ id := 40, cartId := 30, productId := 20, variantId := none, quantity := 1 }]
    orders := [], orderItems := [], nextId := 50 }

/-- Fixture: a pending order of quantity 3 of `pRing`, with empty cart. -/
def dbPend : DB :=
  { users := [uAlice], products := [pRing], carts := [], cartItems := []
    orders := [{ id := 1, userId := 10, addressId := 7, totalAmount := 30
                 status := "pending", paymentStatus := "pending" }]
    orderItems := [{ id := 2, orderId := 1, productId := 20, variantId := none
                     price := 10, quantity := 3 }]
    nextId := 60 }

/-- Fixture: `dbPend` with the order already cancelled. -/
def dbCanc : DB :=
  { dbPend with
      orders := [{ id := 1, userId := 10, addressId := 7, totalAmount := 30
                   status := "cancelled", paymentStatus := "pending" }] }

/-- Fixture: Alice's cart line of `pRing` already records variant 5. -/
def dbVar : DB :=
  { dbW with
      cartItems := [{ id := 40, cartId := 30, productId := 20, variantId := some 5, quantity := 1 }] }

/-- Fixture: a registration request body. -/
def reqBob : UserCreate :=
  { name := "Bob", email := "bob@example.com", phone := none, password := "pw" }

/-- Fixture: the account `register initDB reqBob` creates. -/
def uBob : User :=
  { id := 2, name := "Bob", email := "bob@example.com", phone := none
    passwordHash := hash_password "pw", role := UserRole.customer }

/-- Fixture: an event payload used by the broadcaster claims. -/
def msgW : Event := Event.NEW_ORDER 1 "Alice" 10

/-! ### Library lemmas about `updateFirstWhere` -/

theorem length_updateFirstWhere {α : Type} (pred : α → Bool) (f : α → α) (l : List α) :
    (updateFirstWhere pred f l).length = l.length := by
  induction l with
  | nil => rfl
  | cons x xs ih =>
    simp only [updateFirstWhere]
    split <;> simp [ih]

theorem find?_updateFirstWhere_of_find? {α : Type} {pred : α → Bool} {f : α → α}
    {l : List α} {a : α} (hpf : ∀ x, pred (f x) = pred x)
    (hfind : l.find? pred = some a) :
    (updateFirstWhere pred f l).find? pred = some (f a) := by
  induction l with
  | nil => simp at hfind
  | cons y ys ih =>
    by_cases hp : pred y
    · rw [List.find?_cons_of_pos _ hp] at hfind
      rw [Option.some_inj.mp hfind] at hp ⊢
      simp only [updateFirstWhere, if_pos hp]
      exact List.find?_cons_of_pos _ (by rw [hpf]; exact hp)
    · rw [List.find?_cons_of_neg _ hp] at hfind
      simp only [updateFirstWhere, if_neg hp]
      rw [List.find?_cons_of_neg _ hp]
      exact ih hfind

/-! ### Frame lemmas for the route handlers -/

theorem register_products (db : DB) (d : UserCreate) :
    (register db d).1.products = db.products := by
  unfold register
  cases db.users.find? (fun u => u.email == d.email) <;> rfl

theorem update_product_orderItems (db : DB) (pid : Nat) (d : ProductCreate) :
    (update_product db pid d).1.orderItems = db.orderItems := by
  unfold update_product
  cases findProduct db pid <;> rfl

theorem update_product_orders (db : DB) (pid : Nat) (d : ProductCreate) :
    (update_product db pid d).1.orders = db.orders := by
  unfold update_product
  cases findProduct db pid <;> rfl

theorem get_or_create_cart_products (db : DB) (uid : Nat) :
    (get_or_create_cart db uid).1.products = db.products := by
  unfold get_or_create_cart
  cases db.carts.find? (fun c => c.userId == uid) <;> rfl

theorem get_or_create_cart_cartItems (db : DB) (uid : Nat) :
    (get_or_create_cart db uid).1.cartItems = db.cartItems := by
  unfold get_or_create_cart
  cases db.carts.find? (fun c => c.userId == uid) <;> rfl

theorem add_to_cart_products (db : DB) (u : User) (d : CartItemCreate) :
    (add_to_cart db u d).1.products = db.products := by
  unfold add_to_cart
  dsimp only
  split
  · exact get_or_create_cart_products db u.id
  · split
    · exact get_or_create_cart_products db u.id
    · split
      · exact get_or_create_cart_products db u.id
      · exact get_or_create_cart_products db u.id

theorem remove_from_cart_products (db : DB) (u : User) (itemId : Nat) :
    (remove_from_cart db u itemId).1.products = db.products := by
  unfold remove_from_cart
  dsimp only
  split
  · exact get_or_create_cart_products db u.id
  · exact get_or_create_cart_products db u.id

theorem update_order_status_products (db : DB) (oid : Nat) (s : String) :
    (update_order_status db oid s).1.products = db.products := by
  unfold update_order_status
  cases db.orders.find? (fun o => o.id == oid) <;> rfl

theorem update_product_state (db : DB) (pid : Nat) (d : ProductCreate) :
    (update_product db pid d).1 = db := by
  unfold update_product
  cases findProduct db pid <;> rfl

theorem create_order_state (db : DB) (u : User) (aid : Nat) :
    (create_order db u aid).1 = db := by
  unfold create_order
  cases db.carts.find? (fun c => c.userId == u.id) <;> rfl

/-! ### The product table along reachable traces -/

theorem step_products {db db' : DB} (h : Step db db') : db'.products = db.products := by
  cases h with
  | register d => exact register_products db d
  | createProduct u d hu hr => rfl
  | updateProduct u pid d hu hr => rw [update_product_state]
  | addToCart u d hu hq => exact add_to_cart_products db u d
  | removeFromCart u itemId hu => exact remove_from_cart_products db u itemId
  | checkout u aid hu => rw [create_order_state]
  | orderStatus u oid s hu hr hs => exact update_order_status_products db oid s

theorem reachable_products {db : DB} (h : ReachableAny db) : db.products = [] := by
  unfold ReachableAny at h
  induction h with
  | refl => rfl
  | tail _ hstep ih => rw [step_products hstep, ih]

/-! ### Claims -/

/-- C1: in every state reachable by any sequence of public operations
(registration, product create/update, cart add/remove, checkout, admin
order-status update), every product's stock is non-negative.  The invariant
holds because the product table can never be populated: `create_product` and
`update_product` both raise on the unmapped `image_url`/`slug` attributes
before writing, no other route inserts or updates product rows, and the
seeded store has none — so every reachable state has an empty products
table. -/
theorem C1_stock_nonneg (db : DB) (h : ReachableAny db) :
    ∀ p ∈ db.products, 0 ≤ p.stock := by
  rw [reachable_products h]
  intro p hp
  cases hp

/-- Witness for C1: the invariant instantiated at the concrete reachable
state obtained from the seeded store by one registration. -/
theorem C1_stock_nonneg_witness : StocksNN (register initDB reqBob).1 :=
  C1_stock_nonneg (register initDB reqBob).1
    (Relation.ReflTransGen.single (Step.register initDB reqBob))

/-- C2: whenever checkout fails with any error — 400 "Cart is empty" when
the user owns no cart, or the 500 from the `AttributeError` at `cart.items`
when a cart exists — the committed state is exactly the pre-request state:
no order or order lines are created, stock is unchanged, and the cart and
its lines are unchanged.  Both failures occur before any write. -/
theorem C2_checkout_atomic (db : DB) (u : User) (aid : Nat) (e : HTTPError)
    (h : (create_order db u aid).2 = .error e) :
    (create_order db u aid).1 = db :=
  create_order_state db u aid

/-- Witness for C2: checking out the seeded store, whose admin owns no cart,
fails with "Cart is empty" and leaves the store untouched. -/
theorem C2_checkout_atomic_witness :
    (create_order initDB adminUser 1).2 = Except.error ⟨400, "Cart is empty"⟩ ∧
    (create_order initDB adminUser 1).1 = initDB :=
  ⟨rfl, C2_checkout_atomic initDB adminUser 1 ⟨400, "Cart is empty"⟩ rfl⟩

/-- C3: after every successful checkout, a per-product `STOCK_UPDATE` event
(and a `LOW_STOCK_WARNING` exactly when the new quantity is at or below 5)
is claimed to be emitted.  The claim holds vacuously: no checkout ever
succeeds.  With no cart the route returns 400 "Cart is empty"; with a cart
it raises `AttributeError` at `cart.items` (HTTP 500) — in both cases before
any write or broadcast, so there is no successful checkout after which
events would have to be emitted.  (Even the handler's unreachable broadcast
call constructs only a single `NEW_ORDER` message.) -/
theorem C3_no_successful_checkout (db : DB) (u : User) (aid : Nat) :
    ((create_order db u aid).2 = .error ⟨400, "Cart is empty"⟩ ∨
     (create_order db u aid).2 = .error ⟨500, "Internal Server Error"⟩) ∧
    ∀ (o : Order) (evs : List Event), (create_order db u aid).2 ≠ Except.ok (o, evs) := by
  unfold create_order
  cases hc : db.carts.find? (fun c => c.userId == u.id) with
  | none => exact ⟨Or.inl rfl, fun o evs hco => by cases hco⟩
  | some cart => exact ⟨Or.inr rfl, fun o evs hco => by cases hco⟩

/-- C4 is false as stated: moving the pending order of `dbPend` (one line of
quantity 3 of product 20, whose stock is 6) to "cancelled" leaves every
product row unchanged — stock stays 6 instead of increasing to 9 — and a
second cancellation of the same order succeeds again instead of failing
with `InvalidTransition`. -/
theorem C4_counterexample :
    pRing.stock = 6 ∧
    dbPend.orderItems = [{ id := 2, orderId := 1, productId := 20, variantId := none
                           price := 10, quantity := 3 }] ∧
    (update_order_status dbPend 1 "cancelled").1.products = dbPend.products ∧
    findProduct (update_order_status dbPend 1 "cancelled").1 20 = some pRing ∧
    (update_order_status (update_order_status dbPend 1 "cancelled").1 1 "cancelled").2 =
      Except.ok { id := 1, userId := 10, addressId := 7, totalAmount := 30
                  status := "cancelled", paymentStatus := "pending" } :=
  ⟨rfl, rfl, rfl, rfl, rfl⟩

/-- C4 (amended): the admin status route performs no restock and no
transition check — setting an order's status to "cancelled" leaves every
product row (hence all stock) unchanged, and when it succeeds, repeating the
same cancellation succeeds again with the same cancelled order instead of
failing. -/
theorem C4_cancel_no_restock (db : DB) (oid : Nat) :
    (update_order_status db oid "cancelled").1.products = db.products ∧
    ∀ o, (update_order_status db oid "cancelled").2 = .ok o →
      (update_order_status (update_order_status db oid "cancelled").1 oid "cancelled").2 =
        .ok o := by
  refine ⟨update_order_status_products db oid "cancelled", ?_⟩
  intro o h
  unfold update_order_status at h ⊢
  cases hf : db.orders.find? (fun x => x.id == oid) with
  | none => simp [hf] at h
  | some o0 =>
    simp only [hf] at h ⊢
    rw [Except.ok.injEq] at h
    subst h
    have hff := @find?_updateFirstWhere_of_find? Order (fun x => x.id == oid)
      (fun x => { x with status := "cancelled" }) db.orders o0 (fun x => rfl) hf
    simp only [hff]

/-- Witness for C4 (amended): cancelling the pending order of `dbPend`
leaves the product table unchanged, and a second cancellation succeeds. -/
theorem C4_cancel_no_restock_witness :
    (update_order_status dbPend 1 "cancelled").1.products = dbPend.products ∧
    (update_order_status (update_order_status dbPend 1 "cancelled").1 1 "cancelled").2 =
      Except.ok { id := 1, userId := 10, addressId := 7, totalAmount := 30
                  status := "cancelled", paymentStatus := "pending" } :=
  ⟨(C4_cancel_no_restock dbPend 1).1, (C4_cancel_no_restock dbPend 1).2 _ rfl⟩

/-- C5 is false as stated: the order of `dbCanc` has the terminal status
"cancelled", yet the admin status route moves it to "paid" — a transition
outside `pending → paid/cancelled, paid → shipped, shipped → delivered`. -/
theorem C5_counterexample :
    dbCanc.orders.find? (fun o => o.id == 1) =
      some { id := 1, userId := 10, addressId := 7, totalAmount := 30
             status := "cancelled", paymentStatus := "pending" } ∧
    (update_order_status dbCanc 1 "paid").2 =
      Except.ok { id := 1, userId := 10, addressId := 7, totalAmount := 30
                  status := "paid", paymentStatus := "pending" } ∧
    (update_order_status dbCanc 1 "paid").1.orders.find? (fun o => o.id == 1) =
      some { id := 1, userId := 10, addressId := 7, totalAmount := 30
             status := "paid", paymentStatus := "pending" } :=
  ⟨rfl, rfl, rfl⟩

/-- C5 (amended): whenever the order exists, the admin status route writes
the requested status (any of the five enum values) unconditionally — the
returned order and the stored row carry the new status regardless of the
previous one, so "cancelled" and "delivered" are not terminal. -/
theorem C5_status_unconditional (db : DB) (oid : Nat) (s : String) (o : Order)
    (hs : s ∈ orderStatuses)
    (ho : db.orders.find? (fun x => x.id == oid) = some o) :
    (update_order_status db oid s).2 = .ok { o with status := s } ∧
    (update_order_status db oid s).1.orders =
      updateFirstWhere (fun x => x.id == oid) (fun x => { x with status := s }) db.orders := by
  unfold update_order_status
  simp [ho]

/-- Witness for C5 (amended): the pending order of `dbPend` is moved
directly to "paid". -/
theorem C5_status_unconditional_witness :
    (update_order_status dbPend 1 "paid").2 =
      Except.ok { id := 1, userId := 10, addressId := 7, totalAmount := 30
                  status := "paid", paymentStatus := "pending" } ∧
    (update_order_status dbPend 1 "paid").1.orders =
      updateFirstWhere (fun x => x.id == 1) (fun x => { x with status := "paid" })
        dbPend.orders :=
  C5_status_unconditional dbPend 1 "paid"
    { id := 1, userId := 10, addressId := 7, totalAmount := 30
      status := "pending", paymentStatus := "pending" }
    (by decide) rfl

/-- C6: the claimed capture of per-line unit prices (the `discount_price`
when present and non-null, else the `price`) concerns cart lines processed
by a successful checkout, and holds vacuously: checkout never reaches the
price computation.  The handler fails with 400 when the user owns no cart
and with the `AttributeError` 500 at `cart.items` otherwise, before reading
any price (`cart_item.product` does not exist either, since
`models.CartItem` maps no `product` relationship) — so no order line is
ever created and no unit price is ever captured. -/
theorem C6_no_line_processed (db : DB) (u : User) (aid : Nat) :
    (create_order db u aid).1.orderItems = db.orderItems ∧
    ∀ (o : Order) (evs : List Event), (create_order db u aid).2 ≠ Except.ok (o, evs) := by
  unfold create_order
  cases hc : db.carts.find? (fun c => c.userId == u.id) with
  | none => exact ⟨rfl, fun o evs hco => by cases hco⟩
  | some cart => exact ⟨rfl, fun o evs hco => by cases hco⟩

/-- C7: updating a product never touches existing orders — the route 404s
for a missing product and otherwise raises on the unmapped `image_url`/`slug`
keys before any UPDATE, so order rows and order-item rows (and thus every
captured `unit_price_at_purchase`) are unchanged by any product-update
request. -/
theorem C7_price_immutable (db : DB) (pid : Nat) (d : ProductCreate) :
    (update_product db pid d).1.orderItems = db.orderItems ∧
    (update_product db pid d).1.orders = db.orders :=
  ⟨update_product_orderItems db pid d, update_product_orders db pid d⟩

/-- C8 is false as stated: with two subscribed observers of which the first
fails, `broadcast` (a bare loop with no exception handling) delivers nothing
to the second observer and the failure propagates to the caller, instead of
dropping only the failing observer. -/
theorem C8_counterexample :
    broadcast [⟨1, false⟩, ⟨2, true⟩] msgW = ([], some 1) ∧
    (2, msgW) ∉ (broadcast [⟨1, false⟩, ⟨2, true⟩] msgW).1 ∧
    (broadcast [⟨1, false⟩, ⟨2, true⟩] msgW).2 ≠ none := by
  refine ⟨rfl, by simp [broadcast], by simp [broadcast]⟩

/-- C8 (amended): `broadcast` sends sequentially with no per-observer error
handling — every observer strictly before the first failing one receives the
message, the failing observer's error propagates to the caller, and no
observer at or after the failure receives anything (and none is removed from
the subscription list). -/
theorem C8_broadcast_stops (pre : List Conn) (c : Conn) (post : List Conn) (msg : Event)
    (hpre : ∀ a ∈ pre, a.sendOk = true) (hc : c.sendOk = false) :
    broadcast (pre ++ c :: post) msg = (pre.map (fun a => (a.id, msg)), some c.id) := by
  induction pre with
  | nil => simp [broadcast, hc]
  | cons a pre ih =>
    have ha : a.sendOk = true := hpre a (List.mem_cons_self _ _)
    simp only [List.cons_append, broadcast, ha, if_true, List.map_cons, List.append_eq]
    rw [ih (fun x hx => hpre x (List.mem_cons_of_mem _ hx))]

/-- Witness for C8 (amended): observer 3 (before the failure) receives the
message, the failing observer 1 aborts the loop, observer 2 receives
nothing. -/
theorem C8_broadcast_stops_witness :
    broadcast ([⟨3, true⟩] ++ ⟨1, false⟩ :: [⟨2, true⟩]) msgW = ([(3, msgW)], some 1) :=
  C8_broadcast_stops [⟨3, true⟩] ⟨1, false⟩ [⟨2, true⟩] msgW (by decide) rfl

/-- C9: every account created through the public registration route has role
customer — the handler hard-codes `role=UserRole.customer` and the request
schema has no role field, so no registration request can create an admin. -/
theorem C9_register_customer (db : DB) (d : UserCreate) (u : User)
    (h : (register db d).2 = .ok u) :
    u.role = UserRole.customer ∧ (register db d).1.users = db.users ++ [u] := by
  unfold register at h ⊢
  cases hf : db.users.find? (fun x => x.email == d.email) with
  | some _ => simp [hf] at h
  | none =>
    simp only [hf] at h ⊢
    rw [Except.ok.injEq] at h
    subst h
    exact ⟨rfl, rfl⟩

/-- Witness for C9: registering Bob against the seeded store yields a
customer account appended to the user table. -/
theorem C9_register_customer_witness :
    uBob.role = UserRole.customer ∧
    (register initDB reqBob).1.users = initDB.users ++ [uBob] :=
  C9_register_customer initDB reqBob uBob rfl

/-- C10: when `add_to_cart` is called for a product that already has a line
in the caller's cart, the existing line's quantity is increased by the
requested quantity and that same line (same id, same variant) is returned;
no new line is created, and the stored `variant_id` is kept even when the
request supplies a different one. -/
theorem C10_add_to_cart_merges (db : DB) (u : User) (d : CartItemCreate)
    (p : Product) (it : CartItem)
    (hp : findProduct (get_or_create_cart db u.id).1 d.productId = some p)
    (hs : ¬ p.stock < (d.quantity : Int))
    (hit : (get_or_create_cart db u.id).1.cartItems.find?
        (fun i => i.cartId == (get_or_create_cart db u.id).2.id &&
                  i.productId == d.productId) = some it) :
    (add_to_cart db u d).2 = .ok { it with quantity := it.quantity + d.quantity } ∧
    ({ it with quantity := it.quantity + d.quantity } : CartItem).variantId = it.variantId ∧
    (add_to_cart db u d).1.cartItems =
      updateFirstWhere
        (fun i => i.cartId == (get_or_create_cart db u.id).2.id &&
                  i.productId == d.productId)
        (fun i => { i with quantity := i.quantity + d.quantity })
        db.cartItems ∧
    (add_to_cart db u d).1.cartItems.length = db.cartItems.length := by
  unfold add_to_cart
  dsimp only
  simp only [hp, if_neg hs, hit]
  refine ⟨by trivial, by trivial, ?_, ?_⟩
  · rw [get_or_create_cart_cartItems]
  · rw [get_or_create_cart_cartItems, length_updateFirstWhere]

/-- Witness for C10: adding 2 more units of product 20 (with a different
variant, 9) to Alice's cart merges into the existing variant-5 line. -/
theorem C10_add_to_cart_merges_witness :
    (add_to_cart dbVar uAlice { productId := 20, quantity := 2, variantId := some 9 }).2 =
      .ok { id := 40, cartId := 30, productId := 20, variantId := some 5, quantity := 3 } ∧
    ({ id := 40, cartId := 30, productId := 20, variantId := some 5
       quantity := 3 } : CartItem).variantId = some 5 ∧
    (add_to_cart dbVar uAlice { productId := 20, quantity := 2, variantId := some 9 }).1.cartItems =
      updateFirstWhere
        (fun i => i.cartId == (get_or_create_cart dbVar uAlice.id).2.id && i.productId == 20)
        (fun i => { i with quantity := i.quantity + 2 })
        dbVar.cartItems ∧
    (add_to_cart dbVar uAlice
        { productId := 20, quantity := 2, variantId := some 9 }).1.cartItems.length =
      dbVar.cartItems.length :=
  C10_add_to_cart_merges dbVar uAlice { productId := 20, quantity := 2, variantId := some 9 }
    pRing { id := 40, cartId := 30, productId := 20, variantId := some 5, quantity := 1 }
    rfl (by decide) rfl

end NexChakra
